import Mathlib

/-!
Shallow embedding of `src/4_Pilares.py`, a sliding-window sensor monitoring
example with three sensor variants (temperature, vibration, motion), two
notifier variants (email, webhook), an alert manager and a light controller.

Modelling conventions:
- Python floats are modelled as exact rationals (`ℚ`); every numeric
  comparison settled below is far from any IEEE rounding boundary.
- `statistics.mean` / `statistics.stdev` are modelled exactly:
  `listMean` is the arithmetic mean over `ℚ` and `stdev` is the real square
  root of the exact sample variance (divisor `n - 1`).
- `print` side effects are modelled by returning the list of printed lines;
  mutation of `self` is modelled by explicit state passing.
- `ventana` (window size) is a nonnegative integer (`ℕ`); the source uses a
  Python `int` whose meaningful values here are nonnegative (default 5).
-/

/-- Arithmetic mean of a list, as computed by `statistics.mean`. -/
def listMean (l : List ℚ) : ℚ := l.sum / (l.length : ℚ)

/-- Exact sample variance with divisor `n - 1`, as inside `statistics.stdev`. -/
def sampleVariance (l : List ℚ) : ℚ :=
  let m := listMean l
  (l.map (fun x => (x - m) ^ 2)).sum / ((l.length - 1 : ℕ) : ℚ)

/-- `statistics.stdev`: square root of the sample variance. -/
noncomputable def stdev (l : List ℚ) : ℝ :=
  Real.sqrt ((sampleVariance l : ℚ) : ℝ)

/-- Python's fixed 2-decimal rendering `f"{q:.2f}"` of a value, on the exact
rational: the value is scaled by 100 and rounded to the nearest integer
(every value formatted in this development is far from a rounding tie). -/
def formatFixed2 (q : ℚ) : String :=
  let n : ℤ := round (q * 100)
  let sign := if n < 0 then "-" else ""
  let m : ℕ := n.natAbs
  let cents := m % 100
  sign ++ toString (m / 100) ++ "." ++ (if cents < 10 then "0" else "") ++ toString cents

/-- Shared state of the `Sensor` dataclass: `id`, `ventana` (window size,
default 5), `_calibracion` (default 0) and `_buffer` (default empty). -/
structure SensorState where
  id : String
  ventana : ℕ := 5
  calibracion : ℚ := 0
  buffer : List ℚ := []

/-- Embeds `Sensor.leer`: append `valor + _calibracion` to the buffer, then pop the
oldest element when the length exceeds `ventana`. -/
def SensorState.leer (s : SensorState) (valor : ℚ) : SensorState :=
  let v := valor + s.calibracion
  let b := s.buffer ++ [v]
  { s with buffer := if b.length > s.ventana then b.tail else b }

/-- Embeds `Sensor.promedio`: mean of the buffer, or 0.0 when it is empty. This is a
pure read of the state: it is a function of `s` and returns only a number. -/
def SensorState.promedio (s : SensorState) : ℚ :=
  if s.buffer.isEmpty then 0 else listMean s.buffer

/-- Embeds `SensorTemperatura`: threshold `umbral` defaults to 80.0. -/
structure SensorTemperatura extends SensorState where
  umbral : ℚ := 80

/-- The inherited `leer` on a temperature sensor. -/
def SensorTemperatura.leer (t : SensorTemperatura) (valor : ℚ) : SensorTemperatura :=
  { t with toSensorState := t.toSensorState.leer valor }

/-- Embeds `SensorTemperatura.en_alerta`: `promedio >= umbral`. -/
def SensorTemperatura.en_alerta (t : SensorTemperatura) : Prop :=
  t.promedio ≥ t.umbral

instance (t : SensorTemperatura) : Decidable t.en_alerta := by
  unfold SensorTemperatura.en_alerta; infer_instance

/-- Embeds `SensorVibracion`: threshold `rms_umbral` defaults to 2.5. -/
structure SensorVibracion extends SensorState where
  rms_umbral : ℚ := 5 / 2

/-- The inherited `leer` on a vibration sensor. -/
def SensorVibracion.leer (v : SensorVibracion) (valor : ℚ) : SensorVibracion :=
  { v with toSensorState := v.toSensorState.leer valor }

/-- Embeds `SensorVibracion.en_alerta`: `abs(promedio) >= rms_umbral` (an absolute
average, despite the RMS naming in the source). -/
def SensorVibracion.en_alerta (v : SensorVibracion) : Prop :=
  |v.promedio| ≥ v.rms_umbral

instance (v : SensorVibracion) : Decidable v.en_alerta := by
  unfold SensorVibracion.en_alerta; infer_instance

/-- Embeds `SensorMovimento`: threshold `mov_umbral` defaults to 1.0. -/
structure SensorMovimento extends SensorState where
  mov_umbral : ℚ := 1

/-- The inherited `leer` on a motion sensor. -/
def SensorMovimento.leer (m : SensorMovimento) (valor : ℚ) : SensorMovimento :=
  { m with toSensorState := m.toSensorState.leer valor }

/-- Embeds `SensorMovimento.en_alerta`: `False` with fewer than 2 readings,
otherwise `stdev(buffer) >= mov_umbral`. -/
def SensorMovimento.en_alerta (m : SensorMovimento) : Prop :=
  if m.buffer.length < 2 then False
  else stdev m.buffer ≥ (m.mov_umbral : ℝ)

theorem sampleVariance_nonneg (l : List ℚ) : 0 ≤ sampleVariance l := by
  unfold sampleVariance
  apply div_nonneg
  · apply List.sum_nonneg
    intro x hx
    obtain ⟨y, _, rfl⟩ := List.mem_map.mp hx
    positivity
  · exact Nat.cast_nonneg _

theorem stdev_ge_iff (l : List ℚ) (t : ℚ) :
    stdev l ≥ (t : ℝ) ↔ (t ≤ 0 ∨ t ^ 2 ≤ sampleVariance l) := by
  unfold stdev
  constructor
  · intro h
    rcases le_or_lt t 0 with ht | ht
    · exact Or.inl ht
    · refine Or.inr ?_
      have h2 : ((t : ℝ)) ^ 2 ≤ ((sampleVariance l : ℚ) : ℝ) :=
        (Real.le_sqrt' (by exact_mod_cast ht)).mp h
      exact_mod_cast h2
  · intro h
    rcases h with ht | hv
    · calc (t : ℝ) ≤ 0 := by exact_mod_cast ht
        _ ≤ _ := Real.sqrt_nonneg _
    · have h1 : ((t : ℝ)) ^ 2 ≤ ((sampleVariance l : ℚ) : ℝ) := by exact_mod_cast hv
      calc (t : ℝ) ≤ |(t : ℝ)| := le_abs_self _
        _ = Real.sqrt ((t : ℝ) ^ 2) := (Real.sqrt_sq_eq_abs _).symm
        _ ≤ _ := Real.sqrt_le_sqrt h1

/-- The motion alert, decided without a square root: for a nonnegative
radicand, `stdev >= t` holds iff `t <= 0` or `t ^ 2 <= variance`. -/
theorem mov_en_alerta_iff (m : SensorMovimento) :
    m.en_alerta ↔
      2 ≤ m.buffer.length
        ∧ (m.mov_umbral ≤ 0 ∨ m.mov_umbral ^ 2 ≤ sampleVariance m.buffer) := by
  unfold SensorMovimento.en_alerta
  by_cases h : m.buffer.length < 2
  · simp only [if_pos h, false_iff, not_and]
    omega
  · simp only [if_neg h, stdev_ge_iff]
    constructor
    · intro hd
      exact ⟨by omega, hd⟩
    · intro hd
      exact hd.2

instance (m : SensorMovimento) : Decidable m.en_alerta :=
  decidable_of_iff _ (mov_en_alerta_iff m).symm

/-- The `Notificador` protocol with its two implementations, `NotificadorEmail`
(holding `_destinatario`) and `NotificadorWebhook` (holding `_url`). -/
inductive Notificador where
  | email (destinatario : String)
  | webhook (url : String)

/-- Embeds `enviar`: each notifier prints one line; the line is returned. -/
def Notificador.enviar : Notificador → String → String
  | .email d, mensaje => "[EMAIL a " ++ d ++ "] " ++ mensaje
  | .webhook u, mensaje => "[WEBHOOK " ++ u ++ "] " ++ mensaje

/-- A `Sensor` as held by `GestorAlertas`: one of the three concrete
subclasses. -/
inductive Sensor where
  | temperatura (t : SensorTemperatura)
  | vibracion (v : SensorVibracion)
  | movimento (m : SensorMovimento)

/-- The shared dataclass state of a polymorphic sensor. -/
def Sensor.state : Sensor → SensorState
  | .temperatura t => t.toSensorState
  | .vibracion v => v.toSensorState
  | .movimento m => m.toSensorState

/-- Field `s.id` of a polymorphic sensor. -/
def Sensor.id (s : Sensor) : String := s.state.id

/-- Property `s.promedio` of a polymorphic sensor. -/
def Sensor.promedio (s : Sensor) : ℚ := s.state.promedio

/-- Method `s.en_alerta()`: virtual dispatch to the variant's predicate. -/
def Sensor.en_alerta : Sensor → Prop
  | .temperatura t => t.en_alerta
  | .vibracion v => v.en_alerta
  | .movimento m => m.en_alerta

instance : (s : Sensor) → Decidable s.en_alerta
  | .temperatura t => inferInstanceAs (Decidable t.en_alerta)
  | .vibracion v => inferInstanceAs (Decidable v.en_alerta)
  | .movimento m => inferInstanceAs (Decidable m.en_alerta)

/-- The message `GestorAlertas` formats for an alerting sensor:
`f"ALERTA Sensor {s.id} en umbral (avg={s.promedio:.2f})"`. -/
def mensajeAlerta (s : Sensor) : String :=
  "ALERTA Sensor " ++ s.id ++ " en umbral (avg=" ++ formatFixed2 s.promedio ++ ")"

/-- Embeds `GestorAlertas`: a list of sensors and a list of notifiers. -/
structure GestorAlertas where
  sensores : List Sensor
  notificadores : List Notificador

/-- Embeds `evaluar_y_notificar`: for each sensor in order, if it is in alert, send
the formatted message through every notifier in order. The returned list is
the sequence of `enviar` side effects (printed lines), in order. -/
def GestorAlertas.evaluar_y_notificar (g : GestorAlertas) : List String :=
  g.sensores.flatMap fun s =>
    if s.en_alerta then g.notificadores.map (fun n => n.enviar (mensajeAlerta s)) else []

/-- Embeds `ControladorLuces`: one motion sensor and the `luces_encendidas` flag. -/
structure ControladorLuces where
  sensor : SensorMovimento
  luces_encendidas : Bool

/-- Embeds `ControladorLuces.__init__`: the flag starts false. -/
def ControladorLuces.init (sensor_movimiento : SensorMovimento) : ControladorLuces :=
  { sensor := sensor_movimiento, luces_encendidas := false }

/-- Embeds `encender_luces`: turn the lights on and print, only when they are off. -/
def ControladorLuces.encender_luces (c : ControladorLuces) :
    ControladorLuces × List String :=
  if !c.luces_encendidas then
    ({ c with luces_encendidas := true }, ["LUCES ENCENDIDAS"])
  else (c, [])

/-- Embeds `apagar_luces`: turn the lights off and print, only when they are on. -/
def ControladorLuces.apagar_luces (c : ControladorLuces) :
    ControladorLuces × List String :=
  if c.luces_encendidas then
    ({ c with luces_encendidas := false }, ["LUCES APAGADAS"])
  else (c, [])

/-- Embeds `verificar_movimiento`: level-triggered check of the motion sensor; the
off branch always prints the informational line. -/
def ControladorLuces.verificar_movimiento (c : ControladorLuces) :
    ControladorLuces × List String :=
  if c.sensor.en_alerta then
    c.encender_luces
  else
    let r := c.apagar_luces
    (r.1, r.2 ++ ["No hay suficiente movimiento detectado"])

theorem buffer_foldl_leer (vals : List ℚ) (s : SensorState)
    (h : s.buffer.length ≤ s.ventana) :
    (vals.foldl SensorState.leer s).buffer
      = (s.buffer ++ vals.map (fun x => x + s.calibracion)).drop
          (s.buffer.length + vals.length - s.ventana) := by
  induction vals generalizing s with
  | nil =>
    simp [Nat.sub_eq_zero_of_le (by simpa using h)]
  | cons v vs ih =>
    have hfold : ((v :: vs).foldl SensorState.leer s) = vs.foldl SensorState.leer (s.leer v) := rfl
    have hcal : (s.leer v).calibracion = s.calibracion := rfl
    have hven : (s.leer v).ventana = s.ventana := rfl
    by_cases hc : (s.buffer ++ [v + s.calibracion]).length > s.ventana
    · -- the window is full: the oldest element is evicted
      have hlen : s.buffer.length = s.ventana := by
        simp only [List.length_append, List.length_cons, List.length_nil] at hc; omega
      have hbuf : (s.leer v).buffer
          = (s.buffer ++ [v + s.calibracion]).drop 1 := by
        simp only [SensorState.leer, if_pos hc, List.drop_one]
      have hlen' : (s.leer v).buffer.length ≤ (s.leer v).ventana := by
        rw [hbuf, hven]
        simp only [List.length_drop, List.length_append, List.length_cons, List.length_nil]
        omega
      rw [hfold, ih _ hlen', hbuf, hcal, hven]
      rw [show (s.buffer ++ [v + s.calibracion]).drop 1
            ++ List.map (fun x => x + s.calibracion) vs
          = ((s.buffer ++ [v + s.calibracion])
            ++ List.map (fun x => x + s.calibracion) vs).drop 1 from
        (List.drop_append_of_le_length (by simp)).symm]
      rw [List.drop_drop]
      have hlists : (s.buffer ++ [v + s.calibracion]) ++ List.map (fun x => x + s.calibracion) vs
          = s.buffer ++ List.map (fun x => x + s.calibracion) (v :: vs) := by
        simp
      rw [hlists]
      congr 1
      simp only [List.length_drop, List.length_append, List.length_cons, List.length_nil,
        List.length_map]
      omega
    · -- the window is not yet full
      have hbuf : (s.leer v).buffer = s.buffer ++ [v + s.calibracion] := by
        simp only [SensorState.leer, if_neg hc]
      have hlen' : (s.leer v).buffer.length ≤ (s.leer v).ventana := by
        rw [hbuf, hven]
        simp only [List.length_append, List.length_cons, List.length_nil] at hc ⊢
        omega
      rw [hfold, ih _ hlen', hbuf, hcal, hven]
      have hlists : (s.buffer ++ [v + s.calibracion]) ++ List.map (fun x => x + s.calibracion) vs
          = s.buffer ++ List.map (fun x => x + s.calibracion) (v :: vs) := by
        simp
      rw [hlists]
      congr 1
      simp only [List.length_append, List.length_cons, List.length_nil, List.length_map]
      omega

/-- C1: For a sensor with window size at least 1, after any sequence of
readings the buffer never exceeds the window, and once more readings than the
window size have been recorded the buffer holds exactly the last `w`
calibrated values (FIFO) and `promedio` is their arithmetic mean. -/
theorem claim_window_fifo (nom : String) (w : ℕ) (c : ℚ) (vals : List ℚ)
    (hw : 1 ≤ w) :
    ((vals.foldl SensorState.leer
        { id := nom, ventana := w, calibracion := c, buffer := [] }).buffer.length ≤ w)
    ∧ (w < vals.length →
        (vals.foldl SensorState.leer
            { id := nom, ventana := w, calibracion := c, buffer := [] }).buffer
          = (vals.map (fun x => x + c)).drop (vals.length - w)
        ∧ (vals.foldl SensorState.leer
            { id := nom, ventana := w, calibracion := c, buffer := [] }).promedio
          = listMean ((vals.map (fun x => x + c)).drop (vals.length - w))) := by
  have hb := buffer_foldl_leer vals
    { id := nom, ventana := w, calibracion := c, buffer := [] } (by simp)
  simp only [List.nil_append, List.length_nil, Nat.zero_add] at hb
  refine ⟨?_, fun hlt => ⟨hb, ?_⟩⟩
  · rw [hb]
    simp only [List.length_drop, List.length_map]
    omega
  · have hlen : ((vals.map (fun x => x + c)).drop (vals.length - w)).length = w := by
      simp only [List.length_drop, List.length_map]
      omega
    have hne : ((vals.map (fun x => x + c)).drop (vals.length - w)).isEmpty = false := by
      rcases he : (vals.map (fun x => x + c)).drop (vals.length - w) with _ | _
      · rw [he] at hlen
        simp at hlen
        omega
      · simp
    unfold SensorState.promedio
    rw [hb, hne]
    simp

/-- Witness for C1 at window 2 and readings [1, 2, 3]. -/
theorem claim_window_fifo_witness :
    ((([1, 2, 3] : List ℚ).foldl SensorState.leer
        { id := "s", ventana := 2, calibracion := 0, buffer := [] }).buffer.length ≤ 2)
    ∧ ((([1, 2, 3] : List ℚ).foldl SensorState.leer
        { id := "s", ventana := 2, calibracion := 0, buffer := [] }).buffer
      = (([1, 2, 3] : List ℚ).map (fun x => x + 0)).drop (([1, 2, 3] : List ℚ).length - 2)) := by
  have h := claim_window_fifo "s" 2 0 [1, 2, 3] (by norm_num)
  exact ⟨h.1, (h.2 (by norm_num)).1⟩

/-- C9: `promedio` of a sensor with an empty buffer is exactly 0; it is a pure
function of the state (it returns only a number and no new state). -/
theorem claim_promedio_empty (s : SensorState) (h : s.buffer = []) :
    s.promedio = 0 := by
  simp [SensorState.promedio, h]

/-- Witness for C9: a freshly constructed sensor. -/
theorem claim_promedio_empty_witness :
    SensorState.promedio { id := "S0" } = 0 :=
  claim_promedio_empty { id := "S0" } rfl

/-- C10: with `ventana = 0` every reading is appended and immediately evicted:
the buffer stays empty, `promedio` stays 0 and the length bound holds. -/
theorem claim_window_zero (nom : String) (c : ℚ) (vals : List ℚ) :
    ((vals.foldl SensorState.leer
        { id := nom, ventana := 0, calibracion := c, buffer := [] }).buffer = [])
    ∧ ((vals.foldl SensorState.leer
        { id := nom, ventana := 0, calibracion := c, buffer := [] }).promedio = 0)
    ∧ ((vals.foldl SensorState.leer
        { id := nom, ventana := 0, calibracion := c, buffer := [] }).buffer.length ≤ 0) := by
  have hb := buffer_foldl_leer vals
    { id := nom, ventana := 0, calibracion := c, buffer := [] } (by simp)
  simp only [List.nil_append, List.length_nil, Nat.zero_add, Nat.sub_zero] at hb
  have hempty : (vals.foldl SensorState.leer
      { id := nom, ventana := 0, calibracion := c, buffer := [] }).buffer = [] := by
    rw [hb]
    rw [show vals.length = (vals.map (fun x => x + c)).length by simp]
    exact List.drop_length _
  refine ⟨hempty, ?_, by rw [hempty]; simp⟩
  unfold SensorState.promedio
  rw [hempty]
  simp

/-- C3: a motion sensor never alerts with fewer than 2 readings; with at least
2 readings it alerts iff the sample standard deviation of the buffer is at
least `mov_umbral`, whose default is 1. -/
theorem claim_mov_alert_spec (m : SensorMovimento) :
    (m.buffer.length < 2 → ¬ m.en_alerta)
    ∧ (2 ≤ m.buffer.length → (m.en_alerta ↔ stdev m.buffer ≥ (m.mov_umbral : ℝ)))
    ∧ (∀ st : SensorState, ({ toSensorState := st } : SensorMovimento).mov_umbral = 1) := by
  refine ⟨?_, ?_, fun st => rfl⟩
  · intro h ha
    rw [mov_en_alerta_iff] at ha
    omega
  · intro h
    unfold SensorMovimento.en_alerta
    rw [if_neg (by omega)]

/-- C4 (counterexample): recording [0, 1, 0.2, 1.5] into a fresh motion sensor
with threshold 1 and offset 0 leaves `en_alerta` FALSE, contrary to the claim. -/
theorem claim_mov_demo_counterexample :
    ¬ (([0, 1, 1/5, 3/2] : List ℚ).foldl SensorMovimento.leer
        (SensorMovimento.mk { id := "M1" } 1)).en_alerta := by
  rw [mov_en_alerta_iff]
  norm_num [SensorMovimento.leer, SensorState.leer, sampleVariance, listMean]

/-- C4 (amended): after recording [0, 1, 0.2, 1.5] the motion sensor is NOT in
alert: the exact sample variance is 587/1200 < 1, so the stdev is below 1. -/
theorem claim_mov_demo_alert_false :
    ¬ (([0, 1, 1/5, 3/2] : List ℚ).foldl SensorMovimento.leer
        (SensorMovimento.mk { id := "M1" } 1)).en_alerta
    ∧ sampleVariance (([0, 1, 1/5, 3/2] : List ℚ).foldl SensorMovimento.leer
        (SensorMovimento.mk { id := "M1" } 1)).buffer = 587/1200 := by
  constructor
  · rw [mov_en_alerta_iff]
    norm_num [SensorMovimento.leer, SensorState.leer, sampleVariance, listMean]
  · norm_num [SensorMovimento.leer, SensorState.leer, sampleVariance, listMean]

/-- C5: a temperature sensor alerts iff its average reaches `umbral` (default
80); the demo readings [90, 104, 156] give average 350/3 and an alert, while
[10, 20] gives none. -/
theorem claim_temp_alert_spec (t : SensorTemperatura) :
    (t.en_alerta ↔ t.promedio ≥ t.umbral)
    ∧ ((([90, 104, 156] : List ℚ).foldl SensorTemperatura.leer
        (SensorTemperatura.mk { id := "T1" } 80)).promedio = 350/3
      ∧ (([90, 104, 156] : List ℚ).foldl SensorTemperatura.leer
        (SensorTemperatura.mk { id := "T1" } 80)).en_alerta)
    ∧ (¬ (([10, 20] : List ℚ).foldl SensorTemperatura.leer
        (SensorTemperatura.mk { id := "T1" } 80)).en_alerta)
    ∧ (∀ st : SensorState, ({ toSensorState := st } : SensorTemperatura).umbral = 80) := by
  refine ⟨Iff.rfl, ⟨?_, ?_⟩, ?_, fun st => rfl⟩
  · norm_num [SensorTemperatura.leer, SensorState.leer, SensorState.promedio, listMean]
  · norm_num [SensorTemperatura.en_alerta, SensorTemperatura.leer, SensorState.leer,
      SensorState.promedio, listMean]
  · norm_num [SensorTemperatura.en_alerta, SensorTemperatura.leer, SensorState.leer,
      SensorState.promedio, listMean]

/-- C6: a vibration sensor alerts iff the absolute value of its average
reaches `rms_umbral` (default 5/2) — an absolute average, not a true RMS; the
demo readings [0.5, 1, 2] give average 7/6 and no alert, while [3, 3] alerts. -/
theorem claim_vib_alert_spec (v : SensorVibracion) :
    (v.en_alerta ↔ |v.promedio| ≥ v.rms_umbral)
    ∧ ((([1/2, 1, 2] : List ℚ).foldl SensorVibracion.leer
        (SensorVibracion.mk { id := "V1" } (5/2))).promedio = 7/6
      ∧ ¬ (([1/2, 1, 2] : List ℚ).foldl SensorVibracion.leer
        (SensorVibracion.mk { id := "V1" } (5/2))).en_alerta)
    ∧ ((([3, 3] : List ℚ).foldl SensorVibracion.leer
        (SensorVibracion.mk { id := "V1" } (5/2))).en_alerta)
    ∧ (∀ st : SensorState, ({ toSensorState := st } : SensorVibracion).rms_umbral = 5/2) := by
  refine ⟨Iff.rfl, ⟨?_, ?_⟩, ?_, fun st => rfl⟩
  · norm_num [SensorVibracion.leer, SensorState.leer, SensorState.promedio, listMean]
  · norm_num [SensorVibracion.en_alerta, SensorVibracion.leer, SensorState.leer,
      SensorState.promedio, listMean]
    rw [abs_of_nonneg (by norm_num)]
    norm_num
  · norm_num [SensorVibracion.en_alerta, SensorVibracion.leer, SensorState.leer,
      SensorState.promedio, listMean]

theorem evaluar_eq_filter (sensores : List Sensor) (nots : List Notificador) :
    (sensores.flatMap fun s =>
        if s.en_alerta then nots.map (fun n => n.enviar (mensajeAlerta s)) else [])
      = (sensores.filter fun s => decide s.en_alerta).flatMap
          (fun s => nots.map fun n => n.enviar (mensajeAlerta s)) := by
  induction sensores with
  | nil => rfl
  | cons s ss ih =>
    by_cases h : s.en_alerta
    · simp [List.flatMap_cons, List.filter_cons, h, ih]
    · simp [List.flatMap_cons, List.filter_cons, h, ih]

theorem evaluar_length (sensores : List Sensor) (nots : List Notificador) :
    (sensores.flatMap fun s =>
        if s.en_alerta then nots.map (fun n => n.enviar (mensajeAlerta s)) else []).length
      = (sensores.countP fun s => decide s.en_alerta) * nots.length := by
  induction sensores with
  | nil => simp
  | cons s ss ih =>
    by_cases h : s.en_alerta
    · simp [List.flatMap_cons, List.countP_cons, h, ih]
      ring
    · simp [List.flatMap_cons, List.countP_cons, h, ih]

/-- C2: `evaluar_y_notificar` sends, for each alerting sensor in registration
order, the formatted message through each notifier in registration order; in
total one `enviar` per (alerting sensor, notifier) pair, so 2 alerting sensors
and 2 notifiers give exactly 4 sends. -/
theorem claim_evaluar_y_notificar (g : GestorAlertas) :
    g.evaluar_y_notificar
      = (g.sensores.filter fun s => decide s.en_alerta).flatMap
          (fun s => g.notificadores.map fun n => n.enviar (mensajeAlerta s))
    ∧ g.evaluar_y_notificar.length
      = (g.sensores.countP fun s => decide s.en_alerta) * g.notificadores.length
    ∧ ((g.sensores.countP fun s => decide s.en_alerta) = 2 →
        g.notificadores.length = 2 → g.evaluar_y_notificar.length = 4) := by
  refine ⟨evaluar_eq_filter g.sensores g.notificadores,
    evaluar_length g.sensores g.notificadores, fun h2 hn => ?_⟩
  rw [GestorAlertas.evaluar_y_notificar, evaluar_length g.sensores g.notificadores, h2, hn]

/-- Witness for C2: two alerting temperature sensors and two notifiers give
exactly 4 sends. -/
theorem claim_evaluar_y_notificar_witness :
    (GestorAlertas.mk
      [Sensor.temperatura (SensorTemperatura.mk { id := "T1", buffer := [100] } 80),
       Sensor.temperatura (SensorTemperatura.mk { id := "T2", buffer := [90] } 80)]
      [Notificador.email "ops", Notificador.webhook "hook"]).evaluar_y_notificar.length
      = 4 := by
  apply (claim_evaluar_y_notificar _).2.2
  · norm_num [List.countP_cons, List.countP_nil, Sensor.en_alerta,
      SensorTemperatura.en_alerta, SensorState.promedio, listMean]
  · rfl

/-- C7: with the sensor in alert, two consecutive checks starting from lights
off produce the "LUCES ENCENDIDAS" effect exactly once (the second call is a
silent no-op); with the sensor not in alert, every check emits the
informational line, even when the lights are already off. -/
theorem claim_verificar_movimiento (s : SensorMovimento) :
    (s.en_alerta →
      ControladorLuces.verificar_movimiento { sensor := s, luces_encendidas := false }
          = ({ sensor := s, luces_encendidas := true }, ["LUCES ENCENDIDAS"])
        ∧ ControladorLuces.verificar_movimiento { sensor := s, luces_encendidas := true }
          = ({ sensor := s, luces_encendidas := true }, []))
    ∧ (¬ s.en_alerta →
      ControladorLuces.verificar_movimiento { sensor := s, luces_encendidas := true }
          = ({ sensor := s, luces_encendidas := false },
             ["LUCES APAGADAS", "No hay suficiente movimiento detectado"])
        ∧ ControladorLuces.verificar_movimiento { sensor := s, luces_encendidas := false }
          = ({ sensor := s, luces_encendidas := false },
             ["No hay suficiente movimiento detectado"])) := by
  constructor
  · intro h
    constructor <;>
      simp [ControladorLuces.verificar_movimiento, ControladorLuces.encender_luces,
        ControladorLuces.apagar_luces, h]
  · intro h
    constructor <;>
      simp [ControladorLuces.verificar_movimiento, ControladorLuces.encender_luces,
        ControladorLuces.apagar_luces, h]

/-- Witness for C7: both branches at concrete sensors — in alert with buffer
[0, 10] (stdev = sqrt 50 >= 1), not in alert with an empty buffer. -/
theorem claim_verificar_movimiento_witness :
    (ControladorLuces.verificar_movimiento
        { sensor := SensorMovimento.mk { id := "M", buffer := [0, 10] } 1,
          luces_encendidas := false }
      = ({ sensor := SensorMovimento.mk { id := "M", buffer := [0, 10] } 1,
           luces_encendidas := true }, ["LUCES ENCENDIDAS"]))
    ∧ (ControladorLuces.verificar_movimiento
        { sensor := SensorMovimento.mk { id := "M" } 1, luces_encendidas := false }
      = ({ sensor := SensorMovimento.mk { id := "M" } 1, luces_encendidas := false },
         ["No hay suficiente movimiento detectado"])) := by
  constructor
  · exact ((claim_verificar_movimiento _).1 (by
      rw [mov_en_alerta_iff]
      norm_num [sampleVariance, listMean])).1
  · exact ((claim_verificar_movimiento _).2 (by
      rw [mov_en_alerta_iff]
      norm_num)).2

/-- C8: the lights flag starts false and, after any `verificar_movimiento`
call, equals the motion sensor's alert predicate as evaluated in that call. -/
theorem claim_luces_invariant (s : SensorMovimento) (c : ControladorLuces) :
    (ControladorLuces.init s).luces_encendidas = false
    ∧ c.verificar_movimiento.1.luces_encendidas = decide c.sensor.en_alerta := by
  refine ⟨rfl, ?_⟩
  by_cases h : c.sensor.en_alerta
  · simp only [ControladorLuces.verificar_movimiento, ControladorLuces.encender_luces,
      if_pos h, decide_eq_true h]
    cases hb : c.luces_encendidas <;> simp [hb]
  · simp only [ControladorLuces.verificar_movimiento, ControladorLuces.apagar_luces,
      if_neg h, decide_eq_false h]
    cases hb : c.luces_encendidas <;> simp [hb]
